import Mathlib

/-!
Shallow embedding of `src/vapi.py` (the `vapi` annotation layer): metadata
records `Required` and `Provides`, the property wrappers, the shared argument
normalizer `_helper`, and the four entry points `required`,
`required_property`, `provides`, `provides_property`.

Python values that can appear as the `cap` keyword are modelled by `CapVal`
(absent/`None`, a string, or a sequence of strings); keyword-argument
mappings by `Kwargs`; exceptions by `PyError` inside `Except`.  Python sets
and frozensets of capability strings are modelled by `Finset String`.
-/

namespace Vapi

/-- Embeds the `Required` class (src/vapi.py lines 21-51): `since` is the
first version the method appeared in, `caps` the set of capabilities
conferred (`none` models Python `None`, i.e. absent). -/
structure Required where
  since : Int
  caps : Option (Finset String)
deriving DecidableEq

/-- Embeds `Required.required(version, caps)` (src/vapi.py lines 39-51):
`return (version >= self.since and (self.caps is None or bool(self.caps & caps)))`.
`bool(s)` of a set is truth of nonemptiness; `&` is set intersection. -/
def Required.required (self : Required) (version : Int) (caps : Finset String) : Bool :=
  decide (version ≥ self.since) &&
    (match self.caps with
     | none => true
     | some c => decide (c ∩ caps).Nonempty)

/-- Embeds the `Provides` class (src/vapi.py lines 54-67): stores `since`
verbatim, no behavior. -/
structure Provides where
  since : Int
deriving DecidableEq

/-- A plain class member (a Python function object).  Decorating a plain
member mutates it by attaching the metadata attributes
`__isrequiredmethod__` and/or `__isprovidedmethod__` and returns it; we
model the function identity by `name` and the attachable attributes as
optional fields. -/
structure Member where
  name : String
  isrequiredmethod : Option Required
  isprovidedmethod : Option Provides
deriving DecidableEq

/-- Embeds the `RequiredProperty` class (src/vapi.py lines 70-90): a
`property` subclass carrying the `Required` record as the instance attribute
`__isrequiredmethod__`, with getter/setter/deleter/doc as a plain property. -/
structure RequiredProperty where
  isrequiredmethod : Required
  fget : Option Member
  fset : Option Member
  fdel : Option Member
  doc : Option String
deriving DecidableEq

/-- Embeds the `ProvidesProperty` class (src/vapi.py lines 93-113): intended
as the symmetric wrapper storing a `Provides` record under
`__isprovidedmethod__`. -/
structure ProvidesProperty where
  isprovidedmethod : Provides
  fget : Option Member
  fset : Option Member
  fdel : Option Member
  doc : Option String
deriving DecidableEq

/-- Python exceptions observable from this module. -/
inductive PyError where
  | typeError (msg : String)
  | nameError (name : String)
deriving DecidableEq

/-- Embeds `RequiredProperty.__init__` (src/vapi.py lines 76-90): sets
`self.__isrequiredmethod__ = req` and initializes the underlying property
from `fget`, `fset`, `fdel`, `doc`; never fails. -/
def RequiredProperty.init (req : Required) (fget fset fdel : Option Member)
    (doc : Option String) : Except PyError RequiredProperty :=
  Except.ok ⟨req, fget, fset, fdel, doc⟩

/-- Embeds `ProvidesProperty.__init__` (src/vapi.py lines 99-113).  The body
executes `self.__isprovidedmethod__ = req`, but no name `req` is bound in any
enclosing scope — the parameter is named `prov` — so Python raises
`NameError: name 'req' is not defined` before the property is initialized,
for every combination of arguments. -/
def ProvidesProperty.init (prov : Provides) (fget fset fdel : Option Member)
    (doc : Option String) : Except PyError ProvidesProperty :=
  Except.error (PyError.nameError "req")

/-- A Python value supplied for the `cap` keyword argument: `None`, a single
capability-name string, or a sequence of capability-name strings. -/
inductive CapVal where
  | pyNone
  | pyStr (s : String)
  | pyList (l : List String)
deriving DecidableEq

/-- Python truthiness (`if caps:`) on a `cap` value: `None`, the empty
string and the empty sequence are falsy, everything else truthy. -/
def CapVal.truthy : CapVal → Bool
  | CapVal.pyNone => false
  | CapVal.pyStr s => s ≠ ""
  | CapVal.pyList l => l ≠ []

/-- Embeds `frozenset([caps] if isinstance(caps, six.string_types) else caps)`
(src/vapi.py lines 146-148): a string is wrapped into a one-element set,
a sequence is converted element-wise.  Only reached on truthy values, so the
`pyNone` branch (where Python `frozenset(None)` would raise) is unreachable
in `_helper`. -/
def CapVal.toFrozenset : CapVal → Finset String
  | CapVal.pyNone => ∅
  | CapVal.pyStr s => {s}
  | CapVal.pyList l => l.toFinset

/-- The `cap` branch of `_helper` (src/vapi.py lines 144-150): a truthy
value is normalized to a frozenset, a falsy one becomes `None`. -/
def normalizeCap (caps : CapVal) : Option (Finset String) :=
  if caps.truthy then some caps.toFrozenset else none

/-- The full `cap` extraction: `kwargs.pop('cap', None)` followed by
normalization; an omitted `cap` behaves as `None`. -/
def capArg (cap : Option CapVal) : Option (Finset String) :=
  normalizeCap (cap.getD CapVal.pyNone)

/-- The keyword-argument mapping passed to a decorator: the value under the
key `"since"` if present, the value under the key `"cap"` if present, and
the remaining keyword names (none of which is `"since"` or `"cap"`). -/
structure Kwargs where
  since : Option Int
  cap : Option CapVal
  extra : List String
deriving DecidableEq

/-- The `cls_args` dictionary assembled by `_helper` (src/vapi.py lines
136-150): each field is `some` exactly when the corresponding key was added
to the dictionary. -/
structure ClsArgs where
  since : Option Int
  caps : Option (Option (Finset String))
deriving DecidableEq

/-- Embeds `Required(**cls_args)`.  Every call site pairing `Required` with
`_helper` passes `keys = {'since', 'cap'}`, so both fields are always
present there; the defaults are never exercised by the entry points. -/
def Required.ofClsArgs (a : ClsArgs) : Required :=
  ⟨a.since.getD 0, a.caps.getD none⟩

/-- Embeds `Provides(**cls_args)`.  Every call site pairing `Provides` with
`_helper` passes `keys = {'since'}`, so the field is always present there. -/
def Provides.ofClsArgs (a : ClsArgs) : Provides :=
  ⟨a.since.getD 0⟩

/-- Python `sorted` on strings (lexicographic order). -/
def sortStrs (l : List String) : List String :=
  List.insertionSort (fun a b => a ≤ b) l

/-- The keys still in `kwargs` after `_helper` popped the recognized ones
(src/vapi.py lines 139-150): the unrecognized names, plus `"since"` or
`"cap"` when supplied but not in `keys`. -/
def offendingKeys (kwargs : Kwargs) (keys : List String) : List String :=
  kwargs.extra
    ++ (if kwargs.since.isSome && !(keys.contains "since") then ["since"] else [])
    ++ (if kwargs.cap.isSome && !(keys.contains "cap") then ["cap"] else [])

/-- `sorted(kwargs.keys())` over the unconsumed keyword arguments. -/
def remainingKeys (kwargs : Kwargs) (keys : List String) : List String :=
  sortStrs (offendingKeys kwargs keys)

/-- The message of the unconsumed-keyword `TypeError` (src/vapi.py lines
154-155): `'invalid keyword arguments "%s"' % '", "'.join(sorted(keys))`. -/
def kwMsg (keys : List String) : String :=
  "invalid keyword arguments \"" ++ String.intercalate "\", \"" keys ++ "\""

/-- The message of the excess-positional `TypeError` (src/vapi.py lines
159-160). -/
def posMsg (n : Nat) : String :=
  "invalid positional arguments; expecting at most 1, got " ++ toString n
    ++ " arguments"

/-- The `cls_args` assembly of `_helper` (src/vapi.py lines 136-150):
`since` is popped (default `0`) when recognized, `cap` is popped (default
`None`) and normalized when recognized. -/
def buildClsArgs (kwargs : Kwargs) (keys : List String) : ClsArgs :=
  ⟨if keys.contains "since" then some (kwargs.since.getD 0) else none,
   if keys.contains "cap" then some (capArg kwargs.cap) else none⟩

/-- The two possible successful results of `_helper`: the bare form returns
the decoration result directly; the configured form returns
`functools.partial(decorator, inst)`, a one-argument callable that carries
the single record instance `inst` and applies `decorator inst` when later
called on a member. -/
inductive HelperOut (ρ α : Type) where
  | immediate (r : α)
  | deferred (inst : ρ)
deriving DecidableEq

/-- Embeds `_helper(args, kwargs, decorator, keys, cls)` (src/vapi.py lines
116-171): assemble `cls_args` from the recognized keywords, raise
`TypeError` on unconsumed keywords (message naming them sorted), then raise
`TypeError` on more than one positional argument, then instantiate `cls`
and either decorate immediately (one positional argument) or return the
deferred partial application.  A `decorator` may itself raise, which
propagates (modelled by `Except.map`). -/
def _helper {ρ α : Type} (args : List Member) (kwargs : Kwargs)
    (decorator : ρ → Member → Except PyError α) (keys : List String)
    (cls : ClsArgs → ρ) : Except PyError (HelperOut ρ α) :=
  let remaining := remainingKeys kwargs keys
  if remaining ≠ [] then
    Except.error (PyError.typeError (kwMsg remaining))
  else if args.length > 1 then
    Except.error (PyError.typeError (posMsg args.length))
  else
    let inst := cls (buildClsArgs kwargs keys)
    match args with
    | m :: _ => (decorator inst m).map HelperOut.immediate
    | [] => Except.ok (HelperOut.deferred inst)

/-- The inner `decorator` of `required` (src/vapi.py lines 197-199): sets
`func.__isrequiredmethod__ = req` and returns `func`. -/
def requiredDecorator (req : Required) (func : Member) : Except PyError Member :=
  Except.ok { func with isrequiredmethod := some req }

/-- The inner `decorator` of `provides` (src/vapi.py lines 246-248): sets
`func.__isprovidedmethod__ = prov` and returns `func`. -/
def providesDecorator (prov : Provides) (func : Member) : Except PyError Member :=
  Except.ok { func with isprovidedmethod := some prov }

/-- The decoration action of `required_property`: the class
`RequiredProperty` itself, called as `RequiredProperty(inst, func)`, so the
member becomes the getter. -/
def requiredPropDecorator (req : Required) (func : Member) :
    Except PyError RequiredProperty :=
  RequiredProperty.init req (some func) none none none

/-- The decoration action of `provides_property`: the class
`ProvidesProperty` itself, called as `ProvidesProperty(inst, func)`. -/
def providesPropDecorator (prov : Provides) (func : Member) :
    Except PyError ProvidesProperty :=
  ProvidesProperty.init prov (some func) none none none

/-- Embeds `required(*args, **kwargs)` (src/vapi.py lines 174-202). -/
def required (args : List Member) (kwargs : Kwargs) :
    Except PyError (HelperOut Required Member) :=
  _helper args kwargs requiredDecorator ["since", "cap"] Required.ofClsArgs

/-- Embeds `required_property(*args, **kwargs)` (src/vapi.py lines 205-229). -/
def required_property (args : List Member) (kwargs : Kwargs) :
    Except PyError (HelperOut Required RequiredProperty) :=
  _helper args kwargs requiredPropDecorator ["since", "cap"] Required.ofClsArgs

/-- Embeds `provides(*args, **kwargs)` (src/vapi.py lines 232-251). -/
def provides (args : List Member) (kwargs : Kwargs) :
    Except PyError (HelperOut Provides Member) :=
  _helper args kwargs providesDecorator ["since"] Provides.ofClsArgs

/-- Embeds `provides_property(*args, **kwargs)` (src/vapi.py lines 254-268). -/
def provides_property (args : List Member) (kwargs : Kwargs) :
    Except PyError (HelperOut Provides ProvidesProperty) :=
  _helper args kwargs providesPropDecorator ["since"] Provides.ofClsArgs

end Vapi


/-- With no extra keywords, the keys `since` and `cap` are all consumed. -/
theorem Vapi.remainingKeys_since_cap (kwargs : Vapi.Kwargs) (hx : kwargs.extra = []) :
    Vapi.remainingKeys kwargs ["since", "cap"] = [] := by
  simp [Vapi.remainingKeys, Vapi.offendingKeys, Vapi.sortStrs, hx, List.insertionSort]

/-- With no extra keywords and no `cap`, the key `since` is all consumed. -/
theorem Vapi.remainingKeys_since (kwargs : Vapi.Kwargs) (hx : kwargs.extra = [])
    (hc : kwargs.cap = none) : Vapi.remainingKeys kwargs ["since"] = [] := by
  simp [Vapi.remainingKeys, Vapi.offendingKeys, Vapi.sortStrs, hx, hc, List.insertionSort]

/-- With all keywords consumed, the configured form returns the deferred
partial application carrying the record built from the options. -/
theorem Vapi.helper_nil_of_valid {ρ α : Type} (kwargs : Vapi.Kwargs)
    (d : ρ → Vapi.Member → Except Vapi.PyError α) (keys : List String)
    (cls : Vapi.ClsArgs → ρ) (h : Vapi.remainingKeys kwargs keys = []) :
    Vapi._helper [] kwargs d keys cls =
      Except.ok (HelperOut.deferred (cls (Vapi.buildClsArgs kwargs keys))) := by
  simp [Vapi._helper, h]

/-- With all keywords consumed, the bare form applies the decorator to the
record built from the options and the single member. -/
theorem Vapi.helper_one_of_valid {ρ α : Type} (kwargs : Vapi.Kwargs) (m : Vapi.Member)
    (d : ρ → Vapi.Member → Except Vapi.PyError α) (keys : List String)
    (cls : Vapi.ClsArgs → ρ) (h : Vapi.remainingKeys kwargs keys = []) :
    Vapi._helper [m] kwargs d keys cls =
      (d (cls (Vapi.buildClsArgs kwargs keys)) m).map HelperOut.immediate := by
  simp [Vapi._helper, h]

/-- Claim C2 (code bug): constructing a `ProvidesProperty` — here at the
repository's own test input `ProvidesProperty(prov, test)` — raises
`NameError` instead of storing the record, because `__init__` assigns from
the undefined name `req` (its parameter is `prov`). -/
theorem Vapi.providesProperty_init_raises :
    Vapi.ProvidesProperty.init ⟨5⟩ (some ⟨"test", none, none⟩) none none none =
      Except.error (Vapi.PyError.nameError "req") := rfl

/-- Claim C5: a non-empty string `cap` yields the singleton set, a non-empty
sequence yields the set of its elements, and `None`, the empty string, the
empty sequence, or omission all yield the absent capability value. -/
theorem Vapi.cap_normalization (s : String) (l : List String) (hs : s ≠ "")
    (hl : l ≠ []) :
    Vapi.capArg (some (Vapi.CapVal.pyStr s)) = some {s} ∧
    Vapi.capArg (some (Vapi.CapVal.pyList l)) = some l.toFinset ∧
    Vapi.capArg (some Vapi.CapVal.pyNone) = none ∧
    Vapi.capArg (some (Vapi.CapVal.pyStr "")) = none ∧
    Vapi.capArg (some (Vapi.CapVal.pyList [])) = none ∧
    Vapi.capArg none = none := by
  refine ⟨?_, ?_, rfl, rfl, rfl, rfl⟩ <;>
    simp [Vapi.capArg, Vapi.normalizeCap, Vapi.CapVal.truthy, Vapi.CapVal.toFrozenset,
      hs, hl]

/-- Witness for C5 at `s = "x"`, `l = ["a", "b"]`. -/
theorem Vapi.cap_normalization_witness :
    Vapi.capArg (some (Vapi.CapVal.pyStr "x")) = some {"x"} ∧
    Vapi.capArg (some (Vapi.CapVal.pyList ["a", "b"])) = some (["a", "b"] : List String).toFinset ∧
    Vapi.capArg (some Vapi.CapVal.pyNone) = none ∧
    Vapi.capArg (some (Vapi.CapVal.pyStr "")) = none ∧
    Vapi.capArg (some (Vapi.CapVal.pyList [])) = none ∧
    Vapi.capArg none = none :=
  Vapi.cap_normalization "x" ["a", "b"] (by decide) (by decide)

/-- Claim C6: `required(since=2, cap='x')` applied to `f` returns `f` itself,
otherwise unchanged, with its required-metadata attribute set to
`Required(2, {'x'})`. -/
theorem Vapi.required_scenario (f : Vapi.Member) :
    Vapi.required [f] ⟨some 2, some (Vapi.CapVal.pyStr "x"), []⟩ =
      Except.ok (HelperOut.immediate
        { f with isrequiredmethod := some ⟨2, some {"x"}⟩ }) := by
  rw [Vapi.required, Vapi.helper_one_of_valid _ _ _ _ _ (Vapi.remainingKeys_since_cap _ rfl)]
  simp [Vapi.buildClsArgs, Vapi.capArg, Vapi.normalizeCap, Vapi.CapVal.truthy,
    Vapi.CapVal.toFrozenset, Vapi.Required.ofClsArgs, Vapi.requiredDecorator, Except.map]

/-- Claim C10: one positional argument together with recognized keyword
options is accepted by every entry point: the member is decorated
immediately with the record built from those options (for
`provides_property` the decoration action itself is reached with that
record, where it fails only because of the `NameError` bug of C2). -/
theorem Vapi.bare_call_with_options (f : Vapi.Member) (n : Int) (c : Vapi.CapVal) :
    Vapi.required [f] ⟨some n, some c, []⟩ =
      Except.ok (HelperOut.immediate
        { f with isrequiredmethod := some ⟨n, Vapi.normalizeCap c⟩ }) ∧
    Vapi.required_property [f] ⟨some n, some c, []⟩ =
      Except.ok (HelperOut.immediate ⟨⟨n, Vapi.normalizeCap c⟩, some f, none, none, none⟩) ∧
    Vapi.provides [f] ⟨some n, none, []⟩ =
      Except.ok (HelperOut.immediate { f with isprovidedmethod := some ⟨n⟩ }) ∧
    Vapi.provides_property [f] ⟨some n, none, []⟩ =
      (Vapi.providesPropDecorator ⟨n⟩ f).map HelperOut.immediate := by
  refine ⟨?_, ?_, ?_, ?_⟩
  · rw [Vapi.required, Vapi.helper_one_of_valid _ _ _ _ _ (Vapi.remainingKeys_since_cap _ rfl)]
    simp [Vapi.buildClsArgs, Vapi.capArg, Vapi.Required.ofClsArgs, Vapi.requiredDecorator, Except.map]
  · rw [Vapi.required_property,
      Vapi.helper_one_of_valid _ _ _ _ _ (Vapi.remainingKeys_since_cap _ rfl)]
    simp [Vapi.buildClsArgs, Vapi.capArg, Vapi.Required.ofClsArgs,
      Vapi.requiredPropDecorator, Vapi.RequiredProperty.init, Except.map]
  · rw [Vapi.provides, Vapi.helper_one_of_valid _ _ _ _ _ (Vapi.remainingKeys_since _ rfl rfl)]
    simp [Vapi.buildClsArgs, Vapi.Provides.ofClsArgs, Vapi.providesDecorator, Except.map]
  · rw [Vapi.provides_property,
      Vapi.helper_one_of_valid _ _ _ _ _ (Vapi.remainingKeys_since _ rfl rfl)]
    simp [Vapi.buildClsArgs, Vapi.Provides.ofClsArgs]

/-- Claim C3: for every entry point, the configured form (zero positional
arguments, recognized options) returns the deferred one-argument callable
`functools.partial(decorator, inst)`, and that callable's later application
to a member `m`, namely `decorator inst m`, yields exactly the bare-form
result on `m` with the same options. -/
theorem Vapi.configured_matches_bare (kwargs : Vapi.Kwargs) (m : Vapi.Member)
    (hx : kwargs.extra = []) :
    (∃ inst, Vapi.required [] kwargs = Except.ok (Vapi.HelperOut.deferred inst) ∧
      Vapi.required [m] kwargs =
        (Vapi.requiredDecorator inst m).map Vapi.HelperOut.immediate) ∧
    (∃ inst, Vapi.required_property [] kwargs = Except.ok (Vapi.HelperOut.deferred inst) ∧
      Vapi.required_property [m] kwargs =
        (Vapi.requiredPropDecorator inst m).map Vapi.HelperOut.immediate) ∧
    (kwargs.cap = none →
      ∃ inst, Vapi.provides [] kwargs = Except.ok (Vapi.HelperOut.deferred inst) ∧
        Vapi.provides [m] kwargs =
          (Vapi.providesDecorator inst m).map Vapi.HelperOut.immediate) ∧
    (kwargs.cap = none →
      ∃ inst, Vapi.provides_property [] kwargs = Except.ok (Vapi.HelperOut.deferred inst) ∧
        Vapi.provides_property [m] kwargs =
          (Vapi.providesPropDecorator inst m).map Vapi.HelperOut.immediate) := by
  have h1 := Vapi.remainingKeys_since_cap kwargs hx
  refine ⟨⟨_, Vapi.helper_nil_of_valid _ _ _ _ h1, Vapi.helper_one_of_valid _ _ _ _ _ h1⟩,
    ⟨_, Vapi.helper_nil_of_valid _ _ _ _ h1, Vapi.helper_one_of_valid _ _ _ _ _ h1⟩,
    fun hc => ?_, fun hc => ?_⟩
  · have h2 := Vapi.remainingKeys_since kwargs hx hc
    exact ⟨_, Vapi.helper_nil_of_valid _ _ _ _ h2, Vapi.helper_one_of_valid _ _ _ _ _ h2⟩
  · have h2 := Vapi.remainingKeys_since kwargs hx hc
    exact ⟨_, Vapi.helper_nil_of_valid _ _ _ _ h2, Vapi.helper_one_of_valid _ _ _ _ _ h2⟩

/-- Witness for C3 at `kwargs = {since: 1}` and the member `f`. -/
theorem Vapi.configured_matches_bare_witness :
    (∃ inst, Vapi.required [] ⟨some 1, none, []⟩ = Except.ok (Vapi.HelperOut.deferred inst) ∧
      Vapi.required [⟨"f", none, none⟩] ⟨some 1, none, []⟩ =
        (Vapi.requiredDecorator inst ⟨"f", none, none⟩).map Vapi.HelperOut.immediate) ∧
    (∃ inst, Vapi.required_property [] ⟨some 1, none, []⟩ =
        Except.ok (Vapi.HelperOut.deferred inst) ∧
      Vapi.required_property [⟨"f", none, none⟩] ⟨some 1, none, []⟩ =
        (Vapi.requiredPropDecorator inst ⟨"f", none, none⟩).map Vapi.HelperOut.immediate) ∧
    ((Vapi.Kwargs.mk (some 1) none []).cap = none →
      ∃ inst, Vapi.provides [] ⟨some 1, none, []⟩ = Except.ok (Vapi.HelperOut.deferred inst) ∧
        Vapi.provides [⟨"f", none, none⟩] ⟨some 1, none, []⟩ =
          (Vapi.providesDecorator inst ⟨"f", none, none⟩).map Vapi.HelperOut.immediate) ∧
    ((Vapi.Kwargs.mk (some 1) none []).cap = none →
      ∃ inst, Vapi.provides_property [] ⟨some 1, none, []⟩ =
          Except.ok (Vapi.HelperOut.deferred inst) ∧
        Vapi.provides_property [⟨"f", none, none⟩] ⟨some 1, none, []⟩ =
          (Vapi.providesPropDecorator inst ⟨"f", none, none⟩).map Vapi.HelperOut.immediate) :=
  Vapi.configured_matches_bare ⟨some 1, none, []⟩ ⟨"f", none, none⟩ rfl

/-- Claim C9: the configured form builds the metadata record once, before
returning the deferred callable, which carries exactly that one record;
applying it to any member attaches that same record. -/
theorem Vapi.deferred_single_record (kwargs : Vapi.Kwargs) (hx : kwargs.extra = []) :
    ∃ inst : Vapi.Required,
      Vapi.required [] kwargs = Except.ok (Vapi.HelperOut.deferred inst) ∧
      ∀ m : Vapi.Member,
        Vapi.requiredDecorator inst m =
          Except.ok { m with isrequiredmethod := some inst } :=
  ⟨_, Vapi.helper_nil_of_valid _ _ _ _ (Vapi.remainingKeys_since_cap _ hx),
    fun _ => rfl⟩

/-- Witness for C9 at `kwargs = {since: 2, cap: 'x'}`. -/
theorem Vapi.deferred_single_record_witness :
    ∃ inst : Vapi.Required,
      Vapi.required [] ⟨some 2, some (Vapi.CapVal.pyStr "x"), []⟩ =
        Except.ok (Vapi.HelperOut.deferred inst) ∧
      ∀ m : Vapi.Member,
        Vapi.requiredDecorator inst m =
          Except.ok { m with isrequiredmethod := some inst } :=
  Vapi.deferred_single_record ⟨some 2, some (Vapi.CapVal.pyStr "x"), []⟩ rfl

/-- A decoration action that never raises `TypeError` lets `_helper` raise
`TypeError` exactly for unconsumed keywords or excess positional arguments,
with the keyword error (naming the sorted offenders) taking priority. -/
theorem Vapi.helper_typeError_iff {ρ α : Type} (args : List Vapi.Member)
    (kwargs : Vapi.Kwargs) (d : ρ → Vapi.Member → Except Vapi.PyError α)
    (keys : List String) (cls : Vapi.ClsArgs → ρ)
    (hd : ∀ i m msg, d i m ≠ Except.error (Vapi.PyError.typeError msg)) :
    ((∃ msg, Vapi._helper args kwargs d keys cls =
        Except.error (Vapi.PyError.typeError msg)) ↔
      (Vapi.remainingKeys kwargs keys ≠ [] ∨ args.length > 1)) ∧
    (Vapi.remainingKeys kwargs keys ≠ [] →
      Vapi._helper args kwargs d keys cls =
        Except.error (Vapi.PyError.typeError (Vapi.kwMsg (Vapi.remainingKeys kwargs keys)))) ∧
    (Vapi.remainingKeys kwargs keys = [] → args.length > 1 →
      Vapi._helper args kwargs d keys cls =
        Except.error (Vapi.PyError.typeError (Vapi.posMsg args.length))) := by
  by_cases hr : Vapi.remainingKeys kwargs keys = []
  · by_cases ha : args.length > 1
    · refine ⟨?_, fun h => absurd hr h, fun _ _ => ?_⟩
      · simp [Vapi._helper, hr, ha]
      · simp [Vapi._helper, hr, ha]
    · refine ⟨⟨fun hex => ?_, fun hor => ?_⟩, fun h => absurd hr h, fun _ h => absurd h ha⟩
      · exfalso
        obtain ⟨msg, hmsg⟩ := hex
        cases args with
        | nil => simp [Vapi._helper, hr] at hmsg
        | cons m rest =>
          have hrest : rest = [] := by
            cases rest with
            | nil => rfl
            | cons x xs => simp at ha
          subst hrest
          simp [Vapi._helper, hr] at hmsg
          cases hdm : d (cls (Vapi.buildClsArgs kwargs keys)) m with
          | ok a => rw [hdm] at hmsg; simp [Except.map] at hmsg
          | error e =>
            rw [hdm] at hmsg
            simp [Except.map] at hmsg
            exact hd _ m msg (hmsg ▸ hdm)
      · cases hor with
        | inl h => exact absurd hr h
        | inr h => exact absurd h ha
  · refine ⟨?_, fun _ => ?_, fun h _ => absurd h hr⟩
    · simp [Vapi._helper, hr]
    · simp [Vapi._helper, hr]

/-- Claim C4: for every entry point, a `TypeError` is raised exactly when an
unrecognized keyword option was supplied or more than one positional
argument was supplied; the keyword message names all offending options
sorted and quote/comma-joined, and takes priority over the positional
error. -/
theorem Vapi.entry_point_error_taxonomy (args : List Vapi.Member) (kwargs : Vapi.Kwargs) :
    ((Vapi.remainingKeys kwargs ["since", "cap"]).Sorted (fun a b => a ≤ b) ∧
     (Vapi.remainingKeys kwargs ["since", "cap"]).Perm
       (Vapi.offendingKeys kwargs ["since", "cap"]) ∧
     (Vapi.remainingKeys kwargs ["since"]).Sorted (fun a b => a ≤ b) ∧
     (Vapi.remainingKeys kwargs ["since"]).Perm (Vapi.offendingKeys kwargs ["since"])) ∧
    (((∃ msg, Vapi.required args kwargs = Except.error (Vapi.PyError.typeError msg)) ↔
        (Vapi.remainingKeys kwargs ["since", "cap"] ≠ [] ∨ args.length > 1)) ∧
      (Vapi.remainingKeys kwargs ["since", "cap"] ≠ [] →
        Vapi.required args kwargs = Except.error (Vapi.PyError.typeError
          (Vapi.kwMsg (Vapi.remainingKeys kwargs ["since", "cap"])))) ∧
      (Vapi.remainingKeys kwargs ["since", "cap"] = [] → args.length > 1 →
        Vapi.required args kwargs =
          Except.error (Vapi.PyError.typeError (Vapi.posMsg args.length)))) ∧
    (((∃ msg, Vapi.required_property args kwargs =
          Except.error (Vapi.PyError.typeError msg)) ↔
        (Vapi.remainingKeys kwargs ["since", "cap"] ≠ [] ∨ args.length > 1)) ∧
      (Vapi.remainingKeys kwargs ["since", "cap"] ≠ [] →
        Vapi.required_property args kwargs = Except.error (Vapi.PyError.typeError
          (Vapi.kwMsg (Vapi.remainingKeys kwargs ["since", "cap"])))) ∧
      (Vapi.remainingKeys kwargs ["since", "cap"] = [] → args.length > 1 →
        Vapi.required_property args kwargs =
          Except.error (Vapi.PyError.typeError (Vapi.posMsg args.length)))) ∧
    (((∃ msg, Vapi.provides args kwargs = Except.error (Vapi.PyError.typeError msg)) ↔
        (Vapi.remainingKeys kwargs ["since"] ≠ [] ∨ args.length > 1)) ∧
      (Vapi.remainingKeys kwargs ["since"] ≠ [] →
        Vapi.provides args kwargs = Except.error (Vapi.PyError.typeError
          (Vapi.kwMsg (Vapi.remainingKeys kwargs ["since"])))) ∧
      (Vapi.remainingKeys kwargs ["since"] = [] → args.length > 1 →
        Vapi.provides args kwargs =
          Except.error (Vapi.PyError.typeError (Vapi.posMsg args.length)))) ∧
    (((∃ msg, Vapi.provides_property args kwargs =
          Except.error (Vapi.PyError.typeError msg)) ↔
        (Vapi.remainingKeys kwargs ["since"] ≠ [] ∨ args.length > 1)) ∧
      (Vapi.remainingKeys kwargs ["since"] ≠ [] →
        Vapi.provides_property args kwargs = Except.error (Vapi.PyError.typeError
          (Vapi.kwMsg (Vapi.remainingKeys kwargs ["since"])))) ∧
      (Vapi.remainingKeys kwargs ["since"] = [] → args.length > 1 →
        Vapi.provides_property args kwargs =
          Except.error (Vapi.PyError.typeError (Vapi.posMsg args.length)))) := by
  have hreq := Vapi.helper_typeError_iff args kwargs Vapi.requiredDecorator
    ["since", "cap"] Vapi.Required.ofClsArgs
    (by intro i m msg h; simp [Vapi.requiredDecorator] at h)
  have hrp := Vapi.helper_typeError_iff args kwargs Vapi.requiredPropDecorator
    ["since", "cap"] Vapi.Required.ofClsArgs
    (by intro i m msg h; simp [Vapi.requiredPropDecorator, Vapi.RequiredProperty.init] at h)
  have hp := Vapi.helper_typeError_iff args kwargs Vapi.providesDecorator
    ["since"] Vapi.Provides.ofClsArgs
    (by intro i m msg h; simp [Vapi.providesDecorator] at h)
  have hpp := Vapi.helper_typeError_iff args kwargs Vapi.providesPropDecorator
    ["since"] Vapi.Provides.ofClsArgs
    (by intro i m msg h; simp [Vapi.providesPropDecorator, Vapi.ProvidesProperty.init] at h)
  exact ⟨⟨List.sorted_insertionSort _ _, List.perm_insertionSort _ _,
    List.sorted_insertionSort _ _, List.perm_insertionSort _ _⟩, hreq, hrp, hp, hpp⟩

/-- Witness for C4: `required(f, g, spam=...)` and `provides(f, g, spam=...)`
raise the keyword `TypeError` naming `spam`. -/
theorem Vapi.entry_point_error_taxonomy_witness :
    Vapi.required [⟨"f", none, none⟩, ⟨"g", none, none⟩] ⟨none, none, ["spam"]⟩ =
      Except.error (Vapi.PyError.typeError
        (Vapi.kwMsg (Vapi.remainingKeys ⟨none, none, ["spam"]⟩ ["since", "cap"]))) ∧
    Vapi.provides [⟨"f", none, none⟩, ⟨"g", none, none⟩] ⟨none, none, ["spam"]⟩ =
      Except.error (Vapi.PyError.typeError
        (Vapi.kwMsg (Vapi.remainingKeys ⟨none, none, ["spam"]⟩ ["since"]))) :=
  ⟨(Vapi.entry_point_error_taxonomy _ _).2.1.2.1 (by decide),
   (Vapi.entry_point_error_taxonomy _ _).2.2.2.1.2.1 (by decide)⟩

/-- Claim C1: for every `Required` record `r`, version `v` and capability set
`c`, `r.required v c` is true iff `v ≥ r.since` and (`r.caps` is absent or
`r.caps` shares at least one element with `c`). -/
theorem Vapi.required_pred_iff (r : Vapi.Required) (v : Int) (c : Finset String) :
    r.required v c = true ↔
      (r.since ≤ v ∧
        (r.caps = none ∨ ∃ cs, r.caps = some cs ∧ ∃ x, x ∈ cs ∧ x ∈ c)) := by
  cases r with
  | mk s caps =>
    cases caps with
    | none => simp [Vapi.Required.required, ge_iff_le]
    | some cs =>
      simp [Vapi.Required.required, ge_iff_le, Finset.Nonempty, Finset.mem_inter]

/-- Claim C7: for integers `v1 ≤ v2` and any capability set `S`,
`Required(v1, None).required(v2, S)` is true and
`Required(v2+1, None).required(v1, S)` is false; an absent capability set
makes the requirement unconditional once the version gate is met. -/
theorem Vapi.version_gate_monotone (v1 v2 : Int) (S : Finset String) (h : v1 ≤ v2) :
    (Vapi.Required.mk v1 none).required v2 S = true ∧
      (Vapi.Required.mk (v2 + 1) none).required v1 S = false := by
  constructor
  · simp [Vapi.Required.required]
    omega
  · simp [Vapi.Required.required]
    omega

/-- Witness for C7 at `v1 = 1`, `v2 = 2`, `S = ∅`. -/
theorem Vapi.version_gate_monotone_witness :
    (Vapi.Required.mk 1 none).required 2 ∅ = true ∧
      (Vapi.Required.mk (2 + 1) none).required 1 ∅ = false :=
  Vapi.version_gate_monotone 1 2 ∅ (by decide)

/-- Claim C8: a `Required` record constructed directly with the empty set
(rather than absent) as `caps` makes `required` return false for every
version and every capability set. -/
theorem Vapi.empty_caps_never_required (s v : Int) (c : Finset String) :
    (Vapi.Required.mk s (some ∅)).required v c = false := by
  simp [Vapi.Required.required]
